import Mathlib

/-
Verification development for the finance-dashboard backend
(src/findash: data_contract.py, database.py, crud.py, app.py).

Shallow embedding conventions:
  - Decimal currency values are modelled as rationals (ℚ).
  - Timestamps (datetime values) are modelled as natural numbers.
  - The SQLite-backed table of transactions is modelled as a list of rows
    together with the next auto-assigned primary key.
  - Python exceptions are modelled with Except / Option; HTTP error responses
    with an explicit result type carrying the status code.
-/

namespace Findash

/-- Single quote character, used when assembling the row-level CSV error
messages of app.py (which quote the offending value). -/
def squote : String := String.singleton (Char.ofNat 39)

/-! ### data_contract.py: enumerations -/

/-- TransactionType(StrEnum) from data_contract.py: INCOME, EXPENSE, TRANSFER.
StrEnum with auto() gives each member the lowercased member name as value. -/
inductive TransactionType where
  | income
  | expense
  | transfer
deriving DecidableEq, Repr

/-- The string value of a TransactionType member (StrEnum auto() semantics). -/
def TransactionType.value : TransactionType → String
  | .income => "income"
  | .expense => "expense"
  | .transfer => "transfer"

/-- The list comprehension in app.py: [tt.value for tt in TransactionType],
in declaration order. -/
def transactionTypeValues : List String :=
  ["income", "expense", "transfer"]

/-- Lookup of a TransactionType member by its string value, modelling the
StrEnum constructor TransactionType(s) (which raises when s is not a value). -/
def TransactionType.fromString? (s : String) : Option TransactionType :=
  if s = "income" then some .income
  else if s = "expense" then some .expense
  else if s = "transfer" then some .transfer
  else none

/-- Category(StrEnum) from data_contract.py, fourteen members in declaration
order. -/
inductive Category where
  | salary
  | freelance
  | investment
  | other_income
  | food
  | transport
  | entertainment
  | utilities
  | rent
  | shopping
  | healthcare
  | education
  | other_expense
  | transfer
deriving DecidableEq, Repr

/-- The string value of a Category member (StrEnum auto() semantics). -/
def Category.value : Category → String
  | .salary => "salary"
  | .freelance => "freelance"
  | .investment => "investment"
  | .other_income => "other_income"
  | .food => "food"
  | .transport => "transport"
  | .entertainment => "entertainment"
  | .utilities => "utilities"
  | .rent => "rent"
  | .shopping => "shopping"
  | .healthcare => "healthcare"
  | .education => "education"
  | .other_expense => "other_expense"
  | .transfer => "transfer"

/-- The list comprehension in app.py: [cat.value for cat in Category]. -/
def categoryValues : List String :=
  ["salary", "freelance", "investment", "other_income", "food", "transport",
   "entertainment", "utilities", "rent", "shopping", "healthcare", "education",
   "other_expense", "transfer"]

/-- Lookup of a Category member by its string value, modelling the StrEnum
constructor Category(s). -/
def Category.fromString? (s : String) : Option Category :=
  if s = "salary" then some .salary
  else if s = "freelance" then some .freelance
  else if s = "investment" then some .investment
  else if s = "other_income" then some .other_income
  else if s = "food" then some .food
  else if s = "transport" then some .transport
  else if s = "entertainment" then some .entertainment
  else if s = "utilities" then some .utilities
  else if s = "rent" then some .rent
  else if s = "shopping" then some .shopping
  else if s = "healthcare" then some .healthcare
  else if s = "education" then some .education
  else if s = "other_expense" then some .other_expense
  else if s = "transfer" then some .transfer
  else none

/-! ### data_contract.py: TransactionCreate (pydantic) -/

/-- The field content of a validated TransactionCreate pydantic model:
amount (Decimal, gt=0), description (str, 1..255 chars), category,
transaction_type, date (defaults to now via default_factory). -/
structure TransactionCreate where
  amount : ℚ
  description : String
  category : Category
  transaction_type : TransactionType
  date : Nat
deriving DecidableEq, Repr

/-- Pydantic validation performed when a TransactionCreate is constructed:
Field(..., gt=0) on amount and Field(..., min_length=1, max_length=255) on
description. A failed validation raises ValidationError, modelled as an error
message (the exact pydantic message text is abbreviated). -/
def TransactionCreate.validate (amount : ℚ) (description : String)
    (category : Category) (transaction_type : TransactionType) (date : Nat) :
    Except String TransactionCreate :=
  if amount ≤ 0 then
    .error "amount: Input should be greater than 0"
  else if description.length < 1 then
    .error "description: String should have at least 1 character"
  else if 255 < description.length then
    .error "description: String should have at most 255 characters"
  else
    .ok ⟨amount, description, category, transaction_type, date⟩

/-! ### database.py: the transactions table -/

/-- A persisted row of the transactions table (database.Transaction). -/
structure Transaction where
  id : Nat
  amount : ℚ
  description : String
  category : Category
  transaction_type : TransactionType
  date : Nat
  created_at : Nat
deriving DecidableEq, Repr

/-- The state of the database: the transactions table as a list of rows in
insertion order, the next auto-assigned primary key, and the value of the
created_at column default.  In database.py the column default is written
default=datetime.now(UTC): the call is evaluated once, when the module is
imported, so the default is the CONSTANT datetime captured at load time,
not a per-insert clock reading. -/
structure DBState where
  rows : List Transaction
  nextId : Nat
  createdAtDefault : Nat
deriving DecidableEq, Repr

/-- A fresh database created at module-load time loadTime (SQLite assigns
primary keys starting from 1). -/
def DBState.init (loadTime : Nat) : DBState :=
  ⟨[], 1, loadTime⟩

/-- Well-formedness of the database state: primary keys are pairwise distinct
and below the next key to be assigned (both hold for SQLite autoincrement
keys). -/
def DBState.WF (db : DBState) : Prop :=
  (db.rows.map (fun t => t.id)).Nodup ∧ ∀ t ∈ db.rows, t.id < db.nextId

/-! ### crud.py: transaction CRUD -/

set_option linter.unusedVariables false in
/-- crud.create_transaction: builds a database.Transaction from the validated
input, inserts and commits it, and returns the refreshed row.  The argument
now is the wall-clock instant of the insert; it does NOT influence created_at,
because the created_at column default is the constant captured at module load
(see DBState). -/
def create_transaction (db : DBState) (transaction : TransactionCreate)
    (now : Nat) : DBState × Transaction :=
  let tx : Transaction :=
    ⟨db.nextId, transaction.amount, transaction.description,
     transaction.category, transaction.transaction_type, transaction.date,
     db.createdAtDefault⟩
  (⟨db.rows ++ [tx], db.nextId + 1, db.createdAtDefault⟩, tx)

/-- crud.get_transaction: query ... filter(id == transaction_id).first(). -/
def get_transaction (db : DBState) (transaction_id : Nat) : Option Transaction :=
  db.rows.find? (fun t => t.id == transaction_id)

/-- The ORDER BY date DESC relation used by crud.get_transactions. -/
def dateDesc (a b : Transaction) : Prop := b.date ≤ a.date

instance : DecidableRel dateDesc := fun a b => Nat.decLe b.date a.date

instance : IsTotal Transaction dateDesc :=
  ⟨fun a b => (Nat.le_total a.date b.date).symm⟩

instance : IsTrans Transaction dateDesc :=
  ⟨fun _ _ _ h h2 => Nat.le_trans h2 h⟩

/-- The result set of ORDER BY date DESC, modelled as a (stable) insertion
sort by the dateDesc relation. -/
def sortByDateDesc (rows : List Transaction) : List Transaction :=
  List.insertionSort dateDesc rows

/-- crud.get_transactions: order_by(desc(date)).offset(skip).limit(limit).
Defaults in the Python signature are skip=0, limit=100. -/
def get_transactions (db : DBState) (skip : Nat := 0) (limit : Nat := 100) :
    List Transaction :=
  ((sortByDateDesc db.rows).drop skip).take limit

/-- crud.delete_transaction: look up the first row with the given id; if
present delete it and return True, else return False. -/
def delete_transaction (db : DBState) (transaction_id : Nat) : Bool × DBState :=
  match db.rows.find? (fun t => t.id == transaction_id) with
  | some _ =>
      (true, ⟨db.rows.eraseP (fun t => t.id == transaction_id), db.nextId,
              db.createdAtDefault⟩)
  | none => (false, db)

/-! ### crud.py: dashboard / analytics -/

/-- SQL SUM(amount) over a set of rows: NULL (none) when the set is empty,
otherwise the sum. -/
def sqlSumAmount (ts : List Transaction) : Option ℚ :=
  match ts with
  | [] => none
  | _ => some ((ts.map (fun t => t.amount)).sum)

/-- Python truthiness coalescing result or Decimal(0.00): the default is
taken when result is None, and also when result is the (falsy) value 0. -/
def pyOr (result : Option ℚ) (dflt : ℚ) : ℚ :=
  match result with
  | none => dflt
  | some v => if v = 0 then dflt else v

/-- crud.get_total_income: SUM(amount) filtered on transaction_type == INCOME,
then result or Decimal(0.00). -/
def get_total_income (db : DBState) : ℚ :=
  pyOr (sqlSumAmount (db.rows.filter
    (fun t => t.transaction_type == TransactionType.income))) 0

/-- crud.get_total_expenses: SUM(amount) filtered on
transaction_type == EXPENSE, then result or Decimal(0.00). -/
def get_total_expenses (db : DBState) : ℚ :=
  pyOr (sqlSumAmount (db.rows.filter
    (fun t => t.transaction_type == TransactionType.expense))) 0

/-- crud.get_transaction_count: COUNT over the whole table. -/
def get_transaction_count (db : DBState) : Nat :=
  db.rows.length

/-- Sum of amount over the rows of ts whose category is c (one GROUP BY
bucket). -/
def sumFor (ts : List Transaction) (c : Category) : ℚ :=
  ((ts.filter (fun t => t.category == c)).map (fun t => t.amount)).sum

/-- The distinct categories of a row list, keeping first occurrences: the
GROUP BY keys. -/
def dedupFirst : List Category → List Category
  | [] => []
  | c :: cs => c :: (dedupFirst cs).filter (fun x => x ≠ c)

/-- The GROUP BY category rows of crud.get_top_expense_category: one
(category, SUM(amount)) pair per distinct category of ts. -/
def groupTotals (ts : List Transaction) : List (Category × ℚ) :=
  (dedupFirst (ts.map (fun t => t.category))).map (fun c => (c, sumFor ts c))

/-- ORDER BY total DESC ... first(): an entry with the maximal total, ties
resolved arbitrarily (here: the earliest such entry). -/
def maxByTotal : List (Category × ℚ) → Option (Category × ℚ)
  | [] => none
  | x :: xs => some (xs.foldl (fun b y => if b.2 < y.2 then y else b) x)

/-- crud.get_top_expense_category: among EXPENSE rows, group by category, sum
amount per group, order by the summed total descending, take the first row,
and return its category value string (None when there is no row). -/
def get_top_expense_category (db : DBState) : Option String :=
  (maxByTotal (groupTotals (db.rows.filter
    (fun t => t.transaction_type == TransactionType.expense)))).map
    (fun p => p.1.value)

/-! ### app.py: dashboard summary endpoint -/

/-- DashboardSummary from data_contract.py. -/
structure DashboardSummary where
  total_income : ℚ
  total_expenses : ℚ
  net_worth : ℚ
  transaction_count : Nat
  top_expense_category : Option String
deriving DecidableEq, Repr

/-- app.get_dashboard_summary: composes the five analytics values, with
net_worth computed as total_income - total_expenses. -/
def get_dashboard_summary (db : DBState) : DashboardSummary :=
  let total_income := get_total_income db
  let total_expenses := get_total_expenses db
  ⟨total_income, total_expenses, total_income - total_expenses,
   get_transaction_count db, get_top_expense_category db⟩

/-! ### app.py: POST /transactions endpoint -/

/-- The raw body of a POST /transactions request after JSON decoding and enum
decoding, before the pydantic field constraints (amount gt 0, description
length) are checked.  date is optional; when absent pydantic fills it with
default_factory datetime.now. -/
structure RawTransactionInput where
  amount : ℚ
  description : String
  category : Category
  transaction_type : TransactionType
  date : Option Nat
deriving DecidableEq, Repr

/-- Outcome of an API call: a value, or an HTTP error response with status
code and detail. -/
inductive ApiResult (α : Type) where
  | ok (value : α)
  | httpError (status : Nat) (detail : String)
deriving DecidableEq, Repr

/-- app.create_transaction endpoint: pydantic validates the body (FastAPI
answers 422 on validation failure, nothing is written), then
crud.create_transaction persists it.  now is the request wall-clock time. -/
def post_transactions (db : DBState) (raw : RawTransactionInput) (now : Nat) :
    ApiResult Transaction × DBState :=
  match TransactionCreate.validate raw.amount raw.description raw.category
      raw.transaction_type (raw.date.getD now) with
  | .error m => (.httpError 422 m, db)
  | .ok tc =>
      let r := create_transaction db tc now
      (.ok r.2, r.1)

/-! ### app.py: CSV upload endpoint -/

/-- One data row of the parsed CSV (a pandas DataFrame row).  amount models
the outcome of Decimal(str(cell)): none when the conversion raises (the cell
text is not a decimal literal); the other three cells are taken as text. -/
structure CsvRow where
  amount : Option ℚ
  description : String
  category : String
  transaction_type : String
deriving DecidableEq, Repr

/-- Outcome of pd.read_csv on the decoded upload: EmptyDataError (no content
at all), ParserError (not parseable as tabular text), or a table with its
header columns and data rows (the header row excluded). -/
inductive CsvParseResult where
  | emptyData
  | parserError
  | table (columns : List String) (rows : List CsvRow)
deriving DecidableEq, Repr

/-- The required_columns list of upload_transactions_csv. -/
def requiredColumns : List String :=
  ["amount", "description", "category", "transaction_type"]

/-- Prefix for the row-level error messages: Row (index+1) followed by a
colon, where index is the 0-based pandas row index. -/
def rowErr (index : Nat) (m : String) : String :=
  "Row " ++ toString (index + 1) ++ ": " ++ m

/-- Message of the exception raised by Decimal(str(cell)) on a non-decimal
cell (caught by the per-row handler; exact Python text abbreviated). -/
def decimalConversionMsg : String :=
  "InvalidOperation: could not convert amount to Decimal"

/-- The body of one iteration of the row loop in upload_transactions_csv, up
to the crud call: category membership check, transaction_type membership
check, Decimal conversion, and pydantic TransactionCreate construction.  Any
failure yields the row-level error message recorded by the except handler;
success yields the TransactionCreate to persist.  now is the request time,
used by the pydantic date default_factory. -/
def rowToCreate (now index : Nat) (row : CsvRow) : Except String TransactionCreate :=
  match Category.fromString? row.category with
  | none =>
      .error (rowErr index
        ("Invalid category " ++ squote ++ row.category ++ squote))
  | some c =>
      match TransactionType.fromString? row.transaction_type with
      | none =>
          .error (rowErr index
            ("Invalid transaction_type " ++ squote ++ row.transaction_type ++ squote))
      | some tt =>
          match row.amount with
          | none => .error (rowErr index decimalConversionMsg)
          | some a =>
              match TransactionCreate.validate a row.description c tt now with
              | .error m => .error (rowErr index m)
              | .ok tc => .ok tc

/-- The row loop of upload_transactions_csv starting at 0-based row index:
each row either appends exactly one error message or increments the success
counter after persisting its transaction; processing always continues with
the remaining rows.  Returns the final database, the success count, and the
error list in row order (before the [:10] truncation). -/
def processRowsFrom (now index : Nat) (db : DBState) :
    List CsvRow → DBState × Nat × List String
  | [] => (db, 0, [])
  | row :: rest =>
      match rowToCreate now index row with
      | .error m =>
          let r := processRowsFrom now (index + 1) db rest
          (r.1, r.2.1, m :: r.2.2)
      | .ok tc =>
          let r := processRowsFrom now (index + 1) (create_transaction db tc now).1 rest
          (r.1, r.2.1 + 1, r.2.2)

/-- The JSON body returned by a completed CSV upload. -/
structure UploadResponse where
  successful_imports : Nat
  total_rows : Nat
  errors : List String
deriving DecidableEq, Repr

/-- Detail text of the 500 response produced when the except-Exception
handler re-raises a caught exception e as
HTTPException(500, "Error processing CSV: " + str(e)). -/
def processingErrorDetail (e : String) : String :=
  "Error processing CSV: " ++ e

/-- str(e) for the HTTPException(400, "Missing required columns: ...") that
the code raises when header columns are absent (starlette renders the status
code and detail; the Python list repr of the missing names is abbreviated to
a comma-separated list). -/
def missingColumnsExcText (missing : List String) : String :=
  "400: Missing required columns: " ++ String.intercalate ", " missing

/-- app.upload_transactions_csv after the filename check, on the parse
outcome of the uploaded bytes.  Note the missing-columns branch: the code
raises HTTPException(status_code=400, ...) INSIDE the try block, and the
trailing except-Exception handler catches it (starlette HTTPException is an
Exception subclass) and re-raises HTTPException(500, "Error processing CSV:
" + str(e)), so the client observes status 500, not 400. -/
def upload_transactions_csv (db : DBState) (parsed : CsvParseResult)
    (now : Nat) : ApiResult UploadResponse × DBState :=
  match parsed with
  | .emptyData => (.httpError 400 "CSV file is empty", db)
  | .parserError => (.httpError 400 "Invalid CSV format", db)
  | .table columns rows =>
      let missing := requiredColumns.filter (fun c => ¬ columns.contains c)
      if missing.isEmpty then
        let r := processRowsFrom now 0 db rows
        (.ok ⟨r.2.1, rows.length, r.2.2.take 10⟩, r.1)
      else
        (.httpError 500 (processingErrorDetail (missingColumnsExcText missing)),
         db)

/-! ### Derived views of the row loop, used to state independence -/

/-- The outcome of each CSV data row in isolation: the per-row validation and
construction result of rowToCreate, indexed in file order starting at the
given 0-based index.  Each entry depends only on its own row and index, never
on the other rows or on the database. -/
def rowResults (now index : Nat) : List CsvRow → List (Except String TransactionCreate)
  | [] => []
  | row :: rest => rowToCreate now index row :: rowResults now (index + 1) rest

/-- Extract the recorded message of a failed row outcome. -/
def errorOf : Except String TransactionCreate → Option String
  | .error m => some m
  | .ok _ => none

/-! ### Shared concrete fixtures used by witnesses and counterexamples -/

/-- A fresh empty database, module loaded at time 0. -/
def dbEmpty : DBState := DBState.init 0

/-- A sample persisted transaction row. -/
def txSample : Transaction :=
  ⟨1, 5, "coffee", Category.food, TransactionType.expense, 3, 0⟩

/-- A database holding exactly txSample. -/
def dbOne : DBState := ⟨[txSample], 2, 0⟩

/-- The full required CSV header. -/
def csvHeader : List String :=
  ["amount", "description", "category", "transaction_type"]

/-- Three sample CSV data rows; the second has an invalid category. -/
def csvRowsSample : List CsvRow :=
  [⟨some 10, "lunch", "food", "expense"⟩,
   ⟨some 20, "thing", "bogus", "expense"⟩,
   ⟨some 30, "pay", "salary", "income"⟩]

/-- A database with expense rows FOOD=30, RENT=50, FOOD=10 (the grouped FOOD
total 40 loses to RENT 50). -/
def dbTop : DBState :=
  ⟨[⟨1, 30, "grocery", Category.food, TransactionType.expense, 1, 0⟩,
    ⟨2, 50, "rent", Category.rent, TransactionType.expense, 2, 0⟩,
    ⟨3, 10, "snack", Category.food, TransactionType.expense, 3, 0⟩], 4, 0⟩

/-! ## Helper lemmas -/

/-- Category.fromString? succeeds exactly on the members of the
category_str value list that app.py checks membership in. -/
theorem category_fromString?_eq_none_iff (s : String) :
    Category.fromString? s = none ↔ s ∉ categoryValues := by
  constructor
  · intro h hmem
    simp only [categoryValues, List.mem_cons, List.not_mem_nil, or_false] at hmem
    rcases hmem with h1 | h1 | h1 | h1 | h1 | h1 | h1 | h1 | h1 | h1 | h1 | h1 | h1 | h1 <;>
      subst h1 <;> simp [Category.fromString?] at h
  · intro hmem
    have n1 : s ≠ "salary" := fun he => hmem (by rw [he]; decide)
    have n2 : s ≠ "freelance" := fun he => hmem (by rw [he]; decide)
    have n3 : s ≠ "investment" := fun he => hmem (by rw [he]; decide)
    have n4 : s ≠ "other_income" := fun he => hmem (by rw [he]; decide)
    have n5 : s ≠ "food" := fun he => hmem (by rw [he]; decide)
    have n6 : s ≠ "transport" := fun he => hmem (by rw [he]; decide)
    have n7 : s ≠ "entertainment" := fun he => hmem (by rw [he]; decide)
    have n8 : s ≠ "utilities" := fun he => hmem (by rw [he]; decide)
    have n9 : s ≠ "rent" := fun he => hmem (by rw [he]; decide)
    have n10 : s ≠ "shopping" := fun he => hmem (by rw [he]; decide)
    have n11 : s ≠ "healthcare" := fun he => hmem (by rw [he]; decide)
    have n12 : s ≠ "education" := fun he => hmem (by rw [he]; decide)
    have n13 : s ≠ "other_expense" := fun he => hmem (by rw [he]; decide)
    have n14 : s ≠ "transfer" := fun he => hmem (by rw [he]; decide)
    simp [Category.fromString?, n1, n2, n3, n4, n5, n6, n7, n8, n9, n10, n11,
          n12, n13, n14]

/-- TransactionType.fromString? succeeds exactly on the members of the
transaction_type_str value list that app.py checks membership in. -/
theorem ttype_fromString?_eq_none_iff (s : String) :
    TransactionType.fromString? s = none ↔ s ∉ transactionTypeValues := by
  constructor
  · intro h hmem
    simp only [transactionTypeValues, List.mem_cons, List.not_mem_nil, or_false] at hmem
    rcases hmem with h1 | h1 | h1 <;>
      subst h1 <;> simp [TransactionType.fromString?] at h
  · intro hmem
    have n1 : s ≠ "income" := fun he => hmem (by rw [he]; decide)
    have n2 : s ≠ "expense" := fun he => hmem (by rw [he]; decide)
    have n3 : s ≠ "transfer" := fun he => hmem (by rw [he]; decide)
    simp [TransactionType.fromString?, n1, n2, n3]

/-- The recorded errors of the row loop are exactly the failures of the
isolated per-row outcomes, in row order. -/
theorem processRowsFrom_errors (now : Nat) (rows : List CsvRow) :
    ∀ index db, (processRowsFrom now index db rows).2.2
      = (rowResults now index rows).filterMap errorOf := by
  induction rows with
  | nil => intro index db; rfl
  | cons row rest ih =>
      intro index db
      simp only [processRowsFrom, rowResults, List.filterMap_cons]
      cases h : rowToCreate now index row with
      | error m => simp [errorOf, ih]
      | ok tc => simp [errorOf, ih]

/-- The success counter of the row loop counts exactly the successful
isolated per-row outcomes. -/
theorem processRowsFrom_successes (now : Nat) (rows : List CsvRow) :
    ∀ index db, (processRowsFrom now index db rows).2.1
      = ((rowResults now index rows).filterMap
          (fun r => Except.toOption r)).length := by
  induction rows with
  | nil => intro index db; rfl
  | cons row rest ih =>
      intro index db
      simp only [processRowsFrom, rowResults, List.filterMap_cons]
      cases h : rowToCreate now index row with
      | error m => simp [Except.toOption, ih]
      | ok tc => simp [Except.toOption, ih]

/-- The database produced by the row loop is the fold of
crud.create_transaction over exactly the successful per-row outcomes, in row
order: a failed row contributes nothing and removes nothing. -/
theorem processRowsFrom_db (now : Nat) (rows : List CsvRow) :
    ∀ index db, (processRowsFrom now index db rows).1
      = ((rowResults now index rows).filterMap
          (fun r => Except.toOption r)).foldl
          (fun d tc => (create_transaction d tc now).1) db := by
  induction rows with
  | nil => intro index db; rfl
  | cons row rest ih =>
      intro index db
      simp only [processRowsFrom, rowResults, List.filterMap_cons]
      cases h : rowToCreate now index row with
      | error m => simp [Except.toOption, ih]
      | ok tc => simp [Except.toOption, ih]

/-- Coalescing the SQL SUM with Python or over the default 0 gives exactly
the plain sum (the only falsy Decimal the or can hit is 0 itself). -/
theorem pyOr_sqlSumAmount (ts : List Transaction) :
    pyOr (sqlSumAmount ts) 0 = (ts.map (fun t => t.amount)).sum := by
  cases ts with
  | nil => rfl
  | cons t ts =>
      simp only [pyOr, sqlSumAmount]
      split_ifs with h
      · exact h.symm
      · rfl

/-- Membership is preserved by the first-occurrence dedup of the GROUP BY
keys. -/
theorem mem_dedupFirst (c : Category) : ∀ l : List Category,
    c ∈ dedupFirst l ↔ c ∈ l := by
  intro l
  induction l with
  | nil => simp [dedupFirst]
  | cons x xs ih =>
      by_cases hcx : c = x
      · subst hcx
        simp [dedupFirst]
      · simp [dedupFirst, hcx, List.mem_filter, ih]

/-- The accumulator-style maximum scan of ORDER BY total DESC ... first():
the result is an element of the scanned list and its total dominates every
scanned total. -/
theorem foldl_max_spec (xs : List (Category × ℚ)) : ∀ b : Category × ℚ,
    (xs.foldl (fun b y => if b.2 < y.2 then y else b) b) ∈ b :: xs ∧
    ∀ y ∈ b :: xs, y.2 ≤ (xs.foldl (fun b y => if b.2 < y.2 then y else b) b).2 := by
  induction xs with
  | nil =>
      intro b
      constructor
      · simp
      · intro y hy
        simp only [List.mem_cons, List.not_mem_nil, or_false] at hy
        simp only [List.foldl_nil]
        rw [hy]
  | cons z zs ih =>
      intro b
      have ihz := ih (if b.2 < z.2 then z else b)
      have hacc : (if b.2 < z.2 then z else b).2
          ≤ (zs.foldl (fun b y => if b.2 < y.2 then y else b)
              (if b.2 < z.2 then z else b)).2 :=
        ihz.2 _ (List.mem_cons_self _ _)
      constructor
      · simp only [List.foldl_cons]
        have h1 := ihz.1
        simp only [List.mem_cons] at h1 ⊢
        rcases h1 with h | h
        · by_cases hbz : b.2 < z.2
          · rw [if_pos hbz] at h ⊢
            exact Or.inr (Or.inl h)
          · rw [if_neg hbz] at h ⊢
            exact Or.inl h
        · exact Or.inr (Or.inr h)
      · intro y hy
        simp only [List.mem_cons] at hy
        simp only [List.foldl_cons]
        rcases hy with hy | hy | hy
        · rw [hy]
          by_cases hbz : b.2 < z.2
          · have hc := hacc
            rw [if_pos hbz] at hc ⊢
            exact le_trans (le_of_lt hbz) hc
          · have hc := hacc
            rw [if_neg hbz] at hc ⊢
            exact hc
        · rw [hy]
          by_cases hbz : b.2 < z.2
          · have hc := hacc
            rw [if_pos hbz] at hc ⊢
            exact hc
          · have hc := hacc
            rw [if_neg hbz] at hc ⊢
            exact le_trans (le_of_not_lt hbz) hc
        · exact ihz.2 y (List.mem_cons_of_mem _ hy)

/-- The first GROUP BY result row is absent exactly when there are no rows
to group. -/
theorem maxByTotal_eq_none_iff (l : List (Category × ℚ)) :
    maxByTotal l = none ↔ l = [] := by
  cases l <;> simp [maxByTotal]

/-- The row selected by ORDER BY total DESC ... first() belongs to the
grouped rows and dominates every grouped total. -/
theorem maxByTotal_spec (l : List (Category × ℚ)) (p : Category × ℚ)
    (h : maxByTotal l = some p) : p ∈ l ∧ ∀ y ∈ l, y.2 ≤ p.2 := by
  cases l with
  | nil => simp [maxByTotal] at h
  | cons x xs =>
      simp only [maxByTotal, Option.some_inj] at h
      have hs := foldl_max_spec xs x
      exact ⟨h ▸ hs.1, fun y hy => h ▸ hs.2 y hy⟩

/-- dedupFirst returns the empty list only for the empty list. -/
theorem dedupFirst_eq_nil_iff (l : List Category) :
    dedupFirst l = [] ↔ l = [] := by
  cases l <;> simp [dedupFirst]

/-- Every GROUP BY result row pairs a category of the grouped rows with the
sum of amount over that category. -/
theorem groupTotals_entry (ts : List Transaction) (p : Category × ℚ)
    (h : p ∈ groupTotals ts) :
    p.1 ∈ ts.map (fun t => t.category) ∧ p.2 = sumFor ts p.1 := by
  simp only [groupTotals, List.mem_map] at h
  obtain ⟨c, hc, hp⟩ := h
  rw [mem_dedupFirst] at hc
  constructor
  · rw [← hp]
    exact hc
  · rw [← hp]

/-- Every category appearing among the grouped rows contributes a GROUP BY
result row carrying its summed amount. -/
theorem mem_groupTotals (ts : List Transaction) (c : Category)
    (h : c ∈ ts.map (fun t => t.category)) :
    (c, sumFor ts c) ∈ groupTotals ts := by
  simp only [groupTotals, List.mem_map]
  exact ⟨c, (mem_dedupFirst c _).2 h, rfl⟩

/-- A find? on ids misses when no row carries the id. -/
theorem find?_id_eq_none (l : List Transaction) (i : Nat)
    (h : ∀ t ∈ l, t.id ≠ i) : l.find? (fun t => t.id == i) = none := by
  apply List.find?_eq_none.2
  intro t ht
  simp only [beq_iff_eq]
  exact h t ht

/-- A find? on ids over rows extended with a fresh row (id distinct from all
existing ids) returns exactly the fresh row. -/
theorem find?_append_fresh (l : List Transaction) (tx : Transaction)
    (h : ∀ t ∈ l, t.id ≠ tx.id) :
    (l ++ [tx]).find? (fun t => t.id == tx.id) = some tx := by
  induction l with
  | nil => simp [List.find?]
  | cons t ts ih =>
      have hne : (t.id == tx.id) = false := by
        simp only [beq_eq_false_iff_ne, ne_eq]
        exact h t (List.mem_cons_self t ts)
      simp only [List.cons_append, List.find?_cons, hne]
      exact ih (fun u hu => h u (List.mem_cons_of_mem t hu))

/-- After erasing the first row with a given id from a table whose ids are
pairwise distinct, no row with that id remains. -/
theorem find?_eraseP_id_none (i : Nat) : ∀ l : List Transaction,
    (l.map (fun t => t.id)).Nodup →
    (l.eraseP (fun t => t.id == i)).find? (fun t => t.id == i) = none := by
  intro l
  induction l with
  | nil => intro _; rfl
  | cons t ts ih =>
      intro hnd
      simp only [List.map_cons, List.nodup_cons] at hnd
      by_cases hti : t.id = i
      · rw [List.eraseP_cons_of_pos (by simp [hti])]
        apply find?_id_eq_none
        intro u hu hui
        exact hnd.1 (by
          rw [hti, ← hui]
          exact List.mem_map_of_mem (fun t => t.id) hu)
      · rw [List.eraseP_cons_of_neg (by simp [hti])]
        rw [List.find?_cons_of_neg _ (by simp [hti])]
        exact ih hnd.2

/-- A successfully validated TransactionCreate carries exactly the given
fields and a strictly positive amount. -/
theorem validate_ok (a : ℚ) (d : String) (c : Category) (tt : TransactionType)
    (dt : Nat) (tc : TransactionCreate)
    (h : TransactionCreate.validate a d c tt dt = .ok tc) :
    tc = ⟨a, d, c, tt, dt⟩ ∧ 0 < a := by
  unfold TransactionCreate.validate at h
  split_ifs at h with h1 h2 h3
  simp only [Except.ok.injEq] at h
  exact ⟨h.symm, lt_of_not_le h1⟩

/-- Validation rejects a non-positive amount outright. -/
theorem validate_nonpos (a : ℚ) (d : String) (c : Category)
    (tt : TransactionType) (dt : Nat) (h : a ≤ 0) :
    TransactionCreate.validate a d c tt dt
      = .error "amount: Input should be greater than 0" := by
  unfold TransactionCreate.validate
  rw [if_pos h]

/-- A CSV row that passes the whole per-row pipeline yields a transaction
input with strictly positive amount. -/
theorem rowToCreate_ok_pos (now index : Nat) (row : CsvRow)
    (tc : TransactionCreate) (h : rowToCreate now index row = .ok tc) :
    0 < tc.amount := by
  unfold rowToCreate at h
  split at h
  · exact Except.noConfusion h
  · rename_i c hc
    split at h
    · exact Except.noConfusion h
    · rename_i tt htt
      split at h
      · exact Except.noConfusion h
      · rename_i a ha
        split at h
        · exact Except.noConfusion h
        · rename_i tc2 hv
          simp only [Except.ok.injEq] at h
          obtain ⟨he, hpos⟩ := validate_ok a row.description c tt now tc2 hv
          rw [← h, he]
          exact hpos

/-- Inserting a positive-amount transaction preserves positivity of all
persisted amounts. -/
theorem create_preserves_pos (db : DBState) (tc : TransactionCreate)
    (now : Nat) (hdb : ∀ t ∈ db.rows, 0 < t.amount) (htc : 0 < tc.amount) :
    ∀ t ∈ (create_transaction db tc now).1.rows, 0 < t.amount := by
  intro t ht
  simp only [create_transaction, List.mem_append, List.mem_singleton] at ht
  rcases ht with ht | ht
  · exact hdb t ht
  · rw [ht]
    exact htc

/-- The CSV row loop preserves positivity of all persisted amounts. -/
theorem processRowsFrom_preserves_pos (now : Nat) (rows : List CsvRow) :
    ∀ index db, (∀ t ∈ db.rows, 0 < t.amount) →
    ∀ t ∈ (processRowsFrom now index db rows).1.rows, 0 < t.amount := by
  induction rows with
  | nil => intro index db hdb; exact hdb
  | cons row rest ih =>
      intro index db hdb
      simp only [processRowsFrom]
      cases h : rowToCreate now index row with
      | error m => exact ih (index + 1) db hdb
      | ok tc =>
          exact ih (index + 1) _
            (create_preserves_pos db tc now hdb
              (rowToCreate_ok_pos now index row tc h))

/-- The recorded invalid-category message, spelled out as one concatenation
starting with the 1-based row number. -/
theorem invalid_category_msg (index : Nat) (cat : String) :
    rowErr index ("Invalid category " ++ squote ++ cat ++ squote)
      = "Row " ++ toString (index + 1) ++ ": Invalid category "
          ++ squote ++ cat ++ squote := by
  have hlit : ((": " ++ "Invalid category ") : String) = ": Invalid category " := rfl
  simp only [rowErr, String.append_assoc]
  conv_rhs => rw [← hlit, String.append_assoc]

/-- The recorded invalid-transaction-type message, spelled out as one
concatenation starting with the 1-based row number. -/
theorem invalid_ttype_msg (index : Nat) (tts : String) :
    rowErr index ("Invalid transaction_type " ++ squote ++ tts ++ squote)
      = "Row " ++ toString (index + 1) ++ ": Invalid transaction_type "
          ++ squote ++ tts ++ squote := by
  have hlit : ((": " ++ "Invalid transaction_type ") : String)
      = ": Invalid transaction_type " := rfl
  simp only [rowErr, String.append_assoc]
  conv_rhs => rw [← hlit, String.append_assoc]

/-- A row whose category value is not a member of Category is recorded with
the exact quoted message and skipped. -/
theorem rowToCreate_invalid_category (now index : Nat) (row : CsvRow)
    (h : row.category ∉ categoryValues) :
    rowToCreate now index row
      = .error ("Row " ++ toString (index + 1) ++ ": Invalid category "
          ++ squote ++ row.category ++ squote) := by
  have hc : Category.fromString? row.category = none :=
    (category_fromString?_eq_none_iff row.category).2 h
  rw [← invalid_category_msg]
  unfold rowToCreate
  rw [hc]

/-- A row with a valid category but a transaction_type value that is not a
member of TransactionType is recorded with the exact quoted message and
skipped. -/
theorem rowToCreate_invalid_ttype (now index : Nat) (row : CsvRow)
    (hcat : row.category ∈ categoryValues)
    (h : row.transaction_type ∉ transactionTypeValues) :
    rowToCreate now index row
      = .error ("Row " ++ toString (index + 1) ++ ": Invalid transaction_type "
          ++ squote ++ row.transaction_type ++ squote) := by
  have htt : TransactionType.fromString? row.transaction_type = none :=
    (ttype_fromString?_eq_none_iff row.transaction_type).2 h
  have hc : Category.fromString? row.category ≠ none := by
    intro hn
    exact (category_fromString?_eq_none_iff row.category).1 hn hcat
  obtain ⟨c, hcs⟩ := Option.ne_none_iff_exists'.1 hc
  rw [← invalid_ttype_msg]
  unfold rowToCreate
  rw [hcs, htt]

/-- Every failure of the per-row pipeline is recorded with the Row n: prefix,
numbered 1-based from the first data row. -/
theorem rowToCreate_error_format (now index : Nat) (row : CsvRow) (m : String)
    (h : rowToCreate now index row = .error m) :
    ∃ fail, m = "Row " ++ toString (index + 1) ++ ": " ++ fail := by
  unfold rowToCreate at h
  split at h
  · simp only [Except.error.injEq] at h
    exact ⟨_, h.symm⟩
  · split at h
    · simp only [Except.error.injEq] at h
      exact ⟨_, h.symm⟩
    · split at h
      · simp only [Except.error.injEq] at h
        exact ⟨_, h.symm⟩
      · split at h
        · rename_i m2 hv
          simp only [Except.error.injEq] at h
          exact ⟨m2, h.symm⟩
        · exact Except.noConfusion h

/-- Each data row contributes exactly one outcome, so successes plus recorded
errors always account for every row. -/
theorem processRowsFrom_partition (now : Nat) (rows : List CsvRow) :
    ∀ index db, (processRowsFrom now index db rows).2.1
      + (processRowsFrom now index db rows).2.2.length = rows.length := by
  induction rows with
  | nil => intro index db; rfl
  | cons row rest ih =>
      intro index db
      simp only [processRowsFrom]
      cases h : rowToCreate now index row with
      | error m =>
          have h2 := ih (index + 1) db
          simp only [List.length_cons]
          omega
      | ok tc =>
          have h2 := ih (index + 1) (create_transaction db tc now).1
          simp only [List.length_cons]
          omega

/-! ## Claim theorems -/

/-- C1: once the header check passes, CSV data rows are processed
independently in file order: the recorded error list, the success count and
the final database state are each determined by the isolated per-row
outcomes (so a failure at row K is caught and never blocks processing or
persistence of rows K+1..N); an invalid category or transaction_type is
recorded as the exact quoted Row n message and the row contributes no
insert; and every per-row failure is recorded in the Row n: message form. -/
theorem csv_rows_processed_independently (now : Nat) (db : DBState)
    (rows : List CsvRow) :
    ((processRowsFrom now 0 db rows).2.2
        = (rowResults now 0 rows).filterMap errorOf
      ∧ (processRowsFrom now 0 db rows).2.1
        = ((rowResults now 0 rows).filterMap (fun r => Except.toOption r)).length
      ∧ (processRowsFrom now 0 db rows).1
        = ((rowResults now 0 rows).filterMap (fun r => Except.toOption r)).foldl
            (fun d tc => (create_transaction d tc now).1) db)
    ∧ (∀ index row, row.category ∉ categoryValues →
        rowToCreate now index row
          = .error ("Row " ++ toString (index + 1) ++ ": Invalid category "
              ++ squote ++ row.category ++ squote))
    ∧ (∀ index row, row.category ∈ categoryValues →
        row.transaction_type ∉ transactionTypeValues →
        rowToCreate now index row
          = .error ("Row " ++ toString (index + 1) ++ ": Invalid transaction_type "
              ++ squote ++ row.transaction_type ++ squote))
    ∧ (∀ index row m, rowToCreate now index row = .error m →
        ∃ fail, m = "Row " ++ toString (index + 1) ++ ": " ++ fail) :=
  ⟨⟨processRowsFrom_errors now rows 0 db, processRowsFrom_successes now rows 0 db,
      processRowsFrom_db now rows 0 db⟩,
    fun index row h => rowToCreate_invalid_category now index row h,
    fun index row hc h => rowToCreate_invalid_ttype now index row hc h,
    fun index row m h => rowToCreate_error_format now index row m h⟩

/-- C1 witness: on the sample upload, the bogus category of the second data
row (0-based index 1) is recorded as the quoted Row 2 message, and the error
list of the whole run equals the isolated per-row failures. -/
theorem csv_rows_processed_independently_witness :
    (⟨some 20, "thing", "bogus", "expense"⟩ : CsvRow).category ∉ categoryValues
    ∧ rowToCreate 7 1 ⟨some 20, "thing", "bogus", "expense"⟩
      = .error ("Row " ++ toString (1 + 1) ++ ": Invalid category "
          ++ squote ++ "bogus" ++ squote)
    ∧ (processRowsFrom 7 0 dbEmpty csvRowsSample).2.2
        = (rowResults 7 0 csvRowsSample).filterMap errorOf :=
  ⟨by decide,
   (csv_rows_processed_independently 7 dbEmpty csvRowsSample).2.1 1
     ⟨some 20, "thing", "bogus", "expense"⟩ (by decide),
   (csv_rows_processed_independently 7 dbEmpty csvRowsSample).1.1⟩

/-- C2: contrary to the claim, an upload whose header misses a required
column is NOT answered with status 400: the HTTPException(400) raised inside
the try block is caught by the trailing except-Exception handler and
re-raised as status 500.  The empty-content and parser-error cases do return
400.  In all three cases the database is unchanged. -/
theorem csv_missing_columns_gives_500 :
    upload_transactions_csv dbEmpty
        (.table ["description", "category", "transaction_type"]
          [⟨some 5, "coffee", "food", "expense"⟩]) 3
      = (.httpError 500
          (processingErrorDetail (missingColumnsExcText ["amount"])), dbEmpty)
    ∧ upload_transactions_csv dbEmpty .emptyData 3
      = (.httpError 400 "CSV file is empty", dbEmpty)
    ∧ upload_transactions_csv dbEmpty .parserError 3
      = (.httpError 400 "Invalid CSV format", dbEmpty) :=
  ⟨rfl, rfl, rfl⟩

/-- C3: an upload that reaches row processing responds with the success
count, the total data-row count including failed rows, and the error list
truncated to its first 10 entries, while the database reflects processing of
every row; error messages are numbered 1-based from the first data row. -/
theorem csv_response_reports (now : Nat) (db : DBState) (columns : List String)
    (rows : List CsvRow)
    (h : (requiredColumns.filter (fun c => ¬ columns.contains c)).isEmpty = true) :
    upload_transactions_csv db (.table columns rows) now
      = (.ok ⟨(processRowsFrom now 0 db rows).2.1, rows.length,
              (processRowsFrom now 0 db rows).2.2.take 10⟩,
         (processRowsFrom now 0 db rows).1)
    ∧ (∀ index row m, rowToCreate now index row = .error m →
        ∃ fail, m = "Row " ++ toString (index + 1) ++ ": " ++ fail) := by
  constructor
  · simp only [upload_transactions_csv]
    rw [if_pos h]
  · exact fun index row m hm => rowToCreate_error_format now index row m hm

/-- C3 witness: the sample upload passes the header check and returns the
success count, total row count and truncated error list of the run. -/
theorem csv_response_reports_witness :
    (requiredColumns.filter (fun c => ¬ csvHeader.contains c)).isEmpty = true
    ∧ upload_transactions_csv dbEmpty (.table csvHeader csvRowsSample) 7
      = (.ok ⟨(processRowsFrom 7 0 dbEmpty csvRowsSample).2.1,
              csvRowsSample.length,
              (processRowsFrom 7 0 dbEmpty csvRowsSample).2.2.take 10⟩,
         (processRowsFrom 7 0 dbEmpty csvRowsSample).1) :=
  ⟨by decide,
   (csv_response_reports 7 dbEmpty csvHeader csvRowsSample (by decide)).1⟩

/-- C10: each data row contributes exactly one outcome — one success or one
recorded error (before truncation) — so the reported successful_imports plus
the pre-truncation error count always equals the reported total_rows. -/
theorem csv_outcome_partition (now index : Nat) (db : DBState)
    (rows : List CsvRow) :
    (processRowsFrom now index db rows).2.1
      + (processRowsFrom now index db rows).2.2.length = rows.length
    ∧ (∀ columns resp db2,
        upload_transactions_csv db (.table columns rows) now = (.ok resp, db2) →
        resp.successful_imports + (processRowsFrom now 0 db rows).2.2.length
          = resp.total_rows) := by
  constructor
  · exact processRowsFrom_partition now rows index db
  · intro columns resp db2 hu
    simp only [upload_transactions_csv] at hu
    split at hu
    · simp only [Prod.mk.injEq, ApiResult.ok.injEq] at hu
      rw [← hu.1]
      exact processRowsFrom_partition now rows 0 db
    · simp only [Prod.mk.injEq] at hu
      exact ApiResult.noConfusion hu.1

/-- C10 witness: on the sample upload the reported success count plus the
pre-truncation error count equals the number of data rows. -/
theorem csv_outcome_partition_witness :
    (processRowsFrom 7 0 dbEmpty csvRowsSample).2.1
      + (processRowsFrom 7 0 dbEmpty csvRowsSample).2.2.length
      = csvRowsSample.length :=
  (csv_outcome_partition 7 0 dbEmpty csvRowsSample).2 csvHeader
    ⟨(processRowsFrom 7 0 dbEmpty csvRowsSample).2.1, csvRowsSample.length,
     (processRowsFrom 7 0 dbEmpty csvRowsSample).2.2.take 10⟩
    (processRowsFrom 7 0 dbEmpty csvRowsSample).1 rfl

/-- C4: total income is the sum of amount over INCOME transactions and total
expenses the sum over EXPENSE transactions, each 0 when no matching rows
exist; the summary's net worth is income minus expenses; and the transaction
count counts every row regardless of type (TRANSFER rows are counted but
appear in neither filtered total). -/
theorem dashboard_totals_correct (db : DBState) :
    get_total_income db
      = ((db.rows.filter
          (fun t => t.transaction_type == TransactionType.income)).map
          (fun t => t.amount)).sum
    ∧ get_total_expenses db
      = ((db.rows.filter
          (fun t => t.transaction_type == TransactionType.expense)).map
          (fun t => t.amount)).sum
    ∧ (db.rows.filter (fun t => t.transaction_type == TransactionType.income) = []
        → get_total_income db = 0)
    ∧ (db.rows.filter (fun t => t.transaction_type == TransactionType.expense) = []
        → get_total_expenses db = 0)
    ∧ (get_dashboard_summary db).net_worth
        = get_total_income db - get_total_expenses db
    ∧ (get_dashboard_summary db).transaction_count = db.rows.length
    ∧ get_transaction_count db = db.rows.length := by
  refine ⟨?_, ?_, ?_, ?_, rfl, rfl, rfl⟩
  · unfold get_total_income
    exact pyOr_sqlSumAmount _
  · unfold get_total_expenses
    exact pyOr_sqlSumAmount _
  · intro h
    unfold get_total_income
    rw [h]
    rfl
  · intro h
    unfold get_total_expenses
    rw [h]
    rfl

/-- C4 witness: on the empty database both totals are 0, not an error. -/
theorem dashboard_totals_correct_witness :
    dbEmpty.rows.filter (fun t => t.transaction_type == TransactionType.income) = []
    ∧ get_total_income dbEmpty = 0
    ∧ get_total_expenses dbEmpty = 0 :=
  ⟨rfl, (dashboard_totals_correct dbEmpty).2.2.1 rfl,
   (dashboard_totals_correct dbEmpty).2.2.2.1 rfl⟩

/-- C5: the top expense category restricts to EXPENSE transactions, groups
them by category and sums amount per group: it returns the none signal
exactly when there is no expense transaction, and any returned value is the
string value of a category of some expense row whose grouped sum dominates
the grouped sum of every category appearing among the expense rows (ties
resolved arbitrarily). -/
theorem top_expense_category_spec (db : DBState) :
    (get_top_expense_category db = none
      ↔ db.rows.filter (fun t => t.transaction_type == TransactionType.expense) = [])
    ∧ (∀ s, get_top_expense_category db = some s →
        ∃ c : Category, s = c.value
          ∧ c ∈ (db.rows.filter
              (fun t => t.transaction_type == TransactionType.expense)).map
              (fun t => t.category)
          ∧ ∀ c2 ∈ (db.rows.filter
              (fun t => t.transaction_type == TransactionType.expense)).map
              (fun t => t.category),
              sumFor (db.rows.filter
                (fun t => t.transaction_type == TransactionType.expense)) c2
                ≤ sumFor (db.rows.filter
                  (fun t => t.transaction_type == TransactionType.expense)) c) := by
  constructor
  · unfold get_top_expense_category
    rw [Option.map_eq_none', maxByTotal_eq_none_iff]
    constructor
    · intro h
      have h1 := List.map_eq_nil_iff.1 h
      have h2 := (dedupFirst_eq_nil_iff _).1 h1
      exact List.map_eq_nil_iff.1 h2
    · intro h
      rw [h]
      rfl
  · intro s hs
    unfold get_top_expense_category at hs
    rw [Option.map_eq_some'] at hs
    obtain ⟨p, hp, hps⟩ := hs
    obtain ⟨hmem, hmax⟩ := maxByTotal_spec _ p hp
    obtain ⟨hc1, hc2⟩ := groupTotals_entry _ p hmem
    refine ⟨p.1, hps.symm, hc1, ?_⟩
    intro c2 hc2mem
    have hle := hmax _ (mem_groupTotals _ c2 hc2mem)
    rw [hc2] at hle
    exact hle

/-- C5 witness: with expense rows FOOD=30, RENT=50, FOOD=10 the top expense
category is rent, and rent's grouped sum dominates every grouped sum. -/
theorem top_expense_category_spec_witness :
    get_top_expense_category dbTop = some "rent"
    ∧ ∃ c : Category, "rent" = c.value
        ∧ c ∈ (dbTop.rows.filter
            (fun t => t.transaction_type == TransactionType.expense)).map
            (fun t => t.category)
        ∧ ∀ c2 ∈ (dbTop.rows.filter
            (fun t => t.transaction_type == TransactionType.expense)).map
            (fun t => t.category),
            sumFor (dbTop.rows.filter
              (fun t => t.transaction_type == TransactionType.expense)) c2
              ≤ sumFor (dbTop.rows.filter
                (fun t => t.transaction_type == TransactionType.expense)) c := by
  have htop : get_top_expense_category dbTop = some "rent" := by
    norm_num [get_top_expense_category, dbTop, groupTotals, dedupFirst, sumFor,
      maxByTotal, Category.value, List.filter, List.foldl,
      show (Category.rent == Category.food) = false from rfl,
      show (Category.food == Category.rent) = false from rfl,
      show (Category.food == Category.food) = true from rfl,
      show (Category.rent == Category.rent) = true from rfl,
      show (TransactionType.expense == TransactionType.expense) = true from rfl]
  exact ⟨htop, (top_expense_category_spec dbTop).2 "rent" htop⟩

/-- C6: every write path preserves strict positivity of persisted amounts: a
direct create with amount ≤ 0 is rejected by validation with nothing written
(the state, hence the count, is unchanged), and after any direct create or
any CSV upload every persisted amount remains strictly positive. -/
theorem amount_invariant_maintained (db : DBState)
    (h : ∀ t ∈ db.rows, 0 < t.amount) :
    (∀ raw now, raw.amount ≤ 0 →
      post_transactions db raw now
        = (.httpError 422 "amount: Input should be greater than 0", db))
    ∧ (∀ raw now t, t ∈ (post_transactions db raw now).2.rows → 0 < t.amount)
    ∧ (∀ parsed now t,
        t ∈ (upload_transactions_csv db parsed now).2.rows → 0 < t.amount) := by
  refine ⟨?_, ?_, ?_⟩
  · intro raw now hle
    unfold post_transactions
    rw [validate_nonpos raw.amount raw.description raw.category
        raw.transaction_type (raw.date.getD now) hle]
  · intro raw now t ht
    unfold post_transactions at ht
    cases hv : TransactionCreate.validate raw.amount raw.description raw.category
        raw.transaction_type (raw.date.getD now) with
    | error m =>
        rw [hv] at ht
        exact h t ht
    | ok tc =>
        rw [hv] at ht
        obtain ⟨he, hpos⟩ := validate_ok _ _ _ _ _ tc hv
        refine create_preserves_pos db tc now h ?_ t ht
        rw [he]
        exact hpos
  · intro parsed now t ht
    cases parsed with
    | emptyData => exact h t ht
    | parserError => exact h t ht
    | table columns rows =>
        simp only [upload_transactions_csv] at ht
        split at ht
        · exact processRowsFrom_preserves_pos now rows 0 db h t ht
        · exact h t ht

/-- C6 witness: a create with amount -5 against the empty database is
rejected with the validation error and the state is unchanged. -/
theorem amount_invariant_maintained_witness :
    ((-5 : ℚ) ≤ 0)
    ∧ post_transactions dbEmpty
        ⟨-5, "stuff", Category.food, TransactionType.expense, none⟩ 3
      = (.httpError 422 "amount: Input should be greater than 0", dbEmpty) :=
  ⟨by norm_num,
   (amount_invariant_maintained dbEmpty
       (by simp [dbEmpty, DBState.init])).1
     ⟨-5, "stuff", Category.food, TransactionType.expense, none⟩ 3 (by norm_num)⟩

/-- C7: on a well-formed database, create followed by get on the assigned id
returns exactly the created entity, whose fields are the input fields plus
the system-assigned id and the created_at column value; get on an id carried
by no row answers none; delete returns true exactly when a row with the id
exists, after which get on that id answers none; and delete on a missing id
returns false leaving the state (hence the count) unchanged. -/
theorem crud_roundtrip_and_delete (db : DBState) (h : db.WF) :
    (∀ tc now,
        get_transaction (create_transaction db tc now).1
            (create_transaction db tc now).2.id
          = some (create_transaction db tc now).2
        ∧ (create_transaction db tc now).2.amount = tc.amount
        ∧ (create_transaction db tc now).2.description = tc.description
        ∧ (create_transaction db tc now).2.category = tc.category
        ∧ (create_transaction db tc now).2.transaction_type = tc.transaction_type
        ∧ (create_transaction db tc now).2.date = tc.date
        ∧ (create_transaction db tc now).2.id = db.nextId
        ∧ (create_transaction db tc now).2.created_at = db.createdAtDefault)
    ∧ (∀ i, (∀ t ∈ db.rows, t.id ≠ i) → get_transaction db i = none)
    ∧ (∀ i, ((delete_transaction db i).1 = true ↔ ∃ t ∈ db.rows, t.id = i))
    ∧ (∀ i, (delete_transaction db i).1 = true →
        get_transaction (delete_transaction db i).2 i = none)
    ∧ (∀ i, (delete_transaction db i).1 = false →
        (delete_transaction db i).2 = db
        ∧ get_transaction_count (delete_transaction db i).2
            = get_transaction_count db) := by
  refine ⟨?_, ?_, ?_, ?_, ?_⟩
  · intro tc now
    have hfresh : ∀ t ∈ db.rows, t.id ≠ db.nextId :=
      fun t ht => Nat.ne_of_lt (h.2 t ht)
    exact ⟨find?_append_fresh db.rows (create_transaction db tc now).2 hfresh,
      rfl, rfl, rfl, rfl, rfl, rfl, rfl⟩
  · intro i hno
    exact find?_id_eq_none db.rows i hno
  · intro i
    unfold delete_transaction
    cases hf : db.rows.find? (fun t => t.id == i) with
    | none =>
        constructor
        · intro hcontr
          exact Bool.noConfusion hcontr
        · rintro ⟨t, ht, hti⟩
          have := List.find?_eq_none.1 hf t ht
          simp only [beq_iff_eq] at this
          exact absurd hti this
    | some tx =>
        constructor
        · intro _
          refine ⟨tx, List.mem_of_find?_eq_some hf, ?_⟩
          have := List.find?_some hf
          simpa using this
        · intro _
          rfl
  · intro i htrue
    unfold delete_transaction at htrue ⊢
    cases hf : db.rows.find? (fun t => t.id == i) with
    | none =>
        rw [hf] at htrue
        exact Bool.noConfusion htrue
    | some tx =>
        exact find?_eraseP_id_none i db.rows h.1
  · intro i hfalse
    unfold delete_transaction at hfalse ⊢
    cases hf : db.rows.find? (fun t => t.id == i) with
    | none =>
        exact ⟨rfl, rfl⟩
    | some tx =>
        rw [hf] at hfalse
        exact Bool.noConfusion hfalse

/-- C7 witness: on the one-row database, create-then-get returns the created
entity, delete on the existing id 1 reports an existing row, and get on the
absent id 99 answers none. -/
theorem crud_roundtrip_and_delete_witness :
    dbOne.WF
    ∧ get_transaction
        (create_transaction dbOne ⟨9, "gift", Category.food,
          TransactionType.expense, 4⟩ 6).1
        (create_transaction dbOne ⟨9, "gift", Category.food,
          TransactionType.expense, 4⟩ 6).2.id
      = some (create_transaction dbOne ⟨9, "gift", Category.food,
          TransactionType.expense, 4⟩ 6).2
    ∧ ((delete_transaction dbOne 1).1 = true ↔ ∃ t ∈ dbOne.rows, t.id = 1)
    ∧ get_transaction dbOne 99 = none :=
  ⟨⟨by decide, by decide⟩,
   ((crud_roundtrip_and_delete dbOne ⟨by decide, by decide⟩).1
     ⟨9, "gift", Category.food, TransactionType.expense, 4⟩ 6).1,
   (crud_roundtrip_and_delete dbOne ⟨by decide, by decide⟩).2.2.1 1,
   (crud_roundtrip_and_delete dbOne ⟨by decide, by decide⟩).2.1 99 (by decide)⟩

/-- C8: the paginated listing is the date-descending ordering of the whole
table with skip entries dropped and at most limit returned: it equals that
slice, its length is min(limit, M - skip) (the natural-number truncated
difference, i.e. max(0, min(N, M-K)) over the integers), the ordering is a
permutation of the table sorted descending by date, and the Python defaults
are skip=0, limit=100; no upper bound is imposed on limit. -/
theorem get_transactions_paginated (db : DBState) (skip limit : Nat) :
    get_transactions db skip limit
      = ((sortByDateDesc db.rows).drop skip).take limit
    ∧ (get_transactions db skip limit).length
      = min limit (db.rows.length - skip)
    ∧ (sortByDateDesc db.rows).Perm db.rows
    ∧ List.Sorted dateDesc (sortByDateDesc db.rows)
    ∧ get_transactions db = get_transactions db 0 100 := by
  refine ⟨rfl, ?_, List.perm_insertionSort dateDesc db.rows,
    List.sorted_insertionSort dateDesc db.rows, rfl⟩
  have hlen : (sortByDateDesc db.rows).length = db.rows.length :=
    (List.perm_insertionSort dateDesc db.rows).length_eq
  unfold get_transactions
  rw [List.length_take, List.length_drop, hlen]

/-- C9: contrary to the claim, created_at does not record the persistence
instant: the column default datetime.now(UTC) in database.py is evaluated
once at module import, so two transactions persisted at the distinct
wall-clock times 100 and 200 (module loaded at time 0) both receive
created_at = 0, the module-load constant, and thus equal created_at values. -/
theorem created_at_ignores_persistence_time :
    ((create_transaction dbEmpty ⟨5, "first", Category.salary,
        TransactionType.income, 100⟩ 100).2).created_at = 0
    ∧ ((create_transaction
          (create_transaction dbEmpty ⟨5, "first", Category.salary,
            TransactionType.income, 100⟩ 100).1
          ⟨7, "second", Category.rent, TransactionType.expense, 200⟩
          200).2).created_at = 0 :=
  ⟨rfl, rfl⟩

end Findash
